import Mathlib

/-!
Shallow embedding of the schema-derivation engine of `typesense_integration`
(file `typesense_integration/models.py` and `typesense_integration/common/utils.py`).

Django model metadata is embedded as explicit descriptor records:
a scalar field carries its storage class (`StorageType`), its attached model's
label (Django `model._meta.label`, used by `Field.__str__`), its name and its
`null`/`primary_key` flags; foreign keys and reverse many-to-one relations carry
the data the engine reads from them.  Python `set`s become `Finset`s (membership
is by the descriptor's full identity, mirroring object identity of distinct
Django field instances).  Exceptions become `Except TSError`.
-/

namespace TypesenseDjango

/-- Storage classes appearing in `TypesenseCollection.mapped_field_types`,
decimal parameters included, plus `binaryField` as a representative class that
is absent from the mapping (Django `BinaryField`, used by the
`InvalidField` test model). -/
inductive StorageType where
  | autoField
  | charField
  | urlField
  | textField
  | integerField
  | bigIntegerField
  | positiveBigIntegerField
  | positiveSmallIntegerField
  | positiveIntegerField
  | slugField
  | floatField
  | booleanField
  | dateField
  | dateTimeField
  | decimalField (maxDigits : Nat) (decimalPlaces : Nat)
  | genericIPAddressField
  | jsonField
  | smallAutoField
  | bigAutoField
  | uuidField
  | emailField
  | filePathField
  | smallIntegerField
  | binaryField
deriving DecidableEq

/-- A non-relation Django model field (`models.Field` with `is_relation == False`).
`creationCounter` and `modelLabel` make distinct field objects distinct values,
mirroring Django field identity; `modelLabel` is `model._meta.label`
("app_label.ModelName"), which `Field.__str__` prefixes to the field name. -/
structure ModelField where
  creationCounter : Nat
  modelLabel : String
  name : String
  storageType : StorageType
  null : Bool
  primaryKey : Bool
deriving DecidableEq

/-- Django `Field.__str__` for a field attached to a model:
`"%s.%s" % (model._meta.label, self.name)`. -/
def fieldStr (f : ModelField) : String :=
  f.modelLabel ++ "." ++ f.name

/-- A `models.ForeignKey` (many-to-one).  `relatedFieldsHead` and
`relatedFieldsTail` together embed `field.related_fields` (target-side fields):
the key is composite iff the tail is nonempty, and `related_fields[0]` is the
head.  `relatedModelId` identifies `field.related_model`;
`relatedModelVerboseName` is its `_meta.verbose_name`. -/
structure ForeignKeyField where
  creationCounter : Nat
  name : String
  relatedModelId : Nat
  relatedModelVerboseName : String
  relatedFieldsHead : ModelField
  relatedFieldsTail : List ModelField
  null : Bool
deriving DecidableEq

/-- A `models.ManyToOneRel` (reverse one-to-many). -/
structure ManyToOneRelField where
  creationCounter : Nat
  name : String
  relatedModelId : Nat
deriving DecidableEq

/-- One entry of `model._meta.get_fields()`. -/
inductive MetaField where
  | scalar (f : ModelField)
  | foreignKey (fk : ForeignKeyField)
  | manyToOneRel (r : ManyToOneRelField)
  | manyToManyField (creationCounter : Nat) (name : String) (relatedModelId : Nat)
  | manyToManyRel (creationCounter : Nat) (name : String) (relatedModelId : Nat)
  | genericForeignKey (name : String)
deriving DecidableEq

/-- The `name` attribute read by `should_skip_field`. -/
def MetaField.fieldName : MetaField → String
  | .scalar f => f.name
  | .foreignKey fk => fk.name
  | .manyToOneRel r => r.name
  | .manyToManyField _ n _ => n
  | .manyToManyRel _ n _ => n
  | .genericForeignKey n => n

/-- A Django model: identity, `_meta.verbose_name` and `_meta.get_fields()`. -/
structure DjangoModel where
  id : Nat
  verboseName : String
  metaFields : List MetaField
deriving DecidableEq

/-- Member of the loosely-typed `skip_index_fields` set
(`set[models.Field | models.ForeignObjectRel]`). -/
inductive SkipEntry where
  | scalar (f : ModelField)
  | foreignKey (fk : ForeignKeyField)
  | manyToOneRel (r : ManyToOneRelField)
deriving DecidableEq

/-- Member of the `facets` set (`set[models.Field | models.ForeignKey]`). -/
inductive FacetEntry where
  | scalar (f : ModelField)
  | foreignKey (fk : ForeignKeyField)
deriving DecidableEq

/-- A set-valued parameter that may instead be the `True` sentinel
(`facets`, `detailed_parents`, `detailed_children`). -/
inductive SetOrAll (α : Type) where
  | explicitSet (s : Finset α)
  | all

/-- Error surface of the engine: the `typesense.exceptions` it raises, plus
the Python built-in `OverflowError` that escapes uncaught from the decimal
width computation. -/
inductive TSError where
  | requestMalformed (msg : String)
  | configError (msg : String)
  | overflowError (msg : String)
deriving DecidableEq

/-- Decidable equality of outcomes, for evaluating concrete derivations. -/
instance {e a : Type} [DecidableEq e] [DecidableEq a] : DecidableEq (Except e a) := fun x y =>
  match x, y with
  | Except.ok v, Except.ok w =>
    if h : v = w then Decidable.isTrue (congrArg Except.ok h)
    else Decidable.isFalse (fun hc => h ((Except.ok.injEq v w).mp hc))
  | Except.error v, Except.error w =>
    if h : v = w then Decidable.isTrue (congrArg Except.error h)
    else Decidable.isFalse (fun hc => h ((Except.error.injEq v w).mp hc))
  | Except.ok _, Except.error _ => Decidable.isFalse (fun hc => Except.noConfusion hc)
  | Except.error _, Except.ok _ => Decidable.isFalse (fun hc => Except.noConfusion hc)

/-- True exactly on `RequestMalformed` failures. -/
def isRequestMalformed {α : Type} : Except TSError α → Bool
  | .error (.requestMalformed _) => true
  | _ => false

/-- The Typesense API field dictionary (`APIField` TypedDict); `NotRequired`
keys are `Option`s, `none` meaning the key is absent from the dictionary. -/
structure APIField where
  name : String
  type : String
  facet : Option Bool := none
  index : Option Bool := none
  reference : Option String := none
  optional : Option Bool := none
deriving DecidableEq

/-- Split a character list on whitespace runs, dropping empty words: the
behaviour of Python `str.split()` with no argument. -/
def splitWsGo : List Char → List Char → List String
  | [], acc => if acc.isEmpty then [] else [String.mk acc.reverse]
  | c :: cs, acc =>
    if c.isWhitespace then
      if acc.isEmpty then splitWsGo cs [] else String.mk acc.reverse :: splitWsGo cs []
    else splitWsGo cs (c :: acc)

/-- `common.utils.snake_case`.  The input is lowercased first, so the regular
expression substitutions (which only match uppercase letters) are no-ops and
the function reduces to: lowercase, turn `-` and `.` into spaces, split on
whitespace, join with `_`. -/
def snake_case (s : String) : String :=
  let mapped := s.data.map (fun c => if c = '-' ∨ c = '.' then ' ' else c.toLower)
  String.intercalate "_" (splitWsGo mapped [])

/-- `TypesenseCollection.mapped_field_types`.  In the Python dict literal
`models.FloatField` appears twice (`'float'` then `'float32'`); the last
binding wins, so `FloatField` maps to `float32`. -/
def mapped_field_types : StorageType → Option String
  | .autoField => some "int32"
  | .charField => some "string"
  | .urlField => some "string"
  | .textField => some "string"
  | .integerField => some "int32"
  | .bigIntegerField => some "int64"
  | .positiveBigIntegerField => some "int64"
  | .positiveSmallIntegerField => some "int32"
  | .positiveIntegerField => some "int32"
  | .slugField => some "string"
  | .floatField => some "float32"
  | .booleanField => some "bool"
  | .dateField => some "int64"
  | .dateTimeField => some "int64"
  | .decimalField _ _ => some "float64"
  | .genericIPAddressField => some "string"
  | .jsonField => some "string"
  | .smallAutoField => some "int32"
  | .bigAutoField => some "int64"
  | .uuidField => some "string"
  | .emailField => some "string"
  | .filePathField => some "string"
  | .smallIntegerField => some "int32"
  | .binaryField => none

/-- `TypesenseCollection.mapped_geopoint_types` membership test
(`field.__class__ in {FloatField, DecimalField}`). -/
def is_mapped_geopoint_type : StorageType → Bool
  | .floatField => true
  | .decimalField _ _ => true
  | _ => false

/-- `TypesenseCollection.mapped_sortable_types` membership test; the source
compares `field.__class__` for exact equality, so integer subclasses such as
`BigIntegerField` are not in the set. -/
def is_mapped_sortable_type : StorageType → Bool
  | .floatField => true
  | .decimalField _ _ => true
  | .integerField => true
  | .dateField => true
  | .dateTimeField => true
  | _ => false

/-- `TypesenseCollectionUtils.handle_decimal_field`.  The Python expression
`(10 ** (max_digits - decimal_places)) - (10 ** -decimal_places)` mixes int
and float arithmetic.  With `decimal_places == 0` the second operand is the
int `10 ** 0`, the whole expression stays an int, and the comparison
`int < 3.4e38` is exact for any size, so no error is possible.  With
`decimal_places >= 1` the second operand is a float, so the int first operand
is converted to a double; that conversion raises an uncaught `OverflowError`
("int too large to convert to float") exactly when
`max_digits - decimal_places >= 309`, since `10 ** 309` exceeds the largest
double (`~1.7977e308`).  Away from the overflow the comparison is modelled in
exact rational arithmetic: double rounding (relative error about `1e-16`)
cannot flip a comparison whose left operand, of the form `10^k - 10^-s` with
`k <= 308`, is always at least a factor of `3.4` away from the `3.4e38`
threshold, and no such value lies between the double nearest `3.4e38` and the
rational `3.4e38`. -/
def handle_decimal_field (maxDigits decimalPlaces : Nat) : Except TSError String :=
  let maxFloatValue : ℚ := 3.4e38
  let maxFieldValue : ℚ :=
    (10 : ℚ) ^ ((maxDigits : ℤ) - (decimalPlaces : ℤ)) - (10 : ℚ) ^ (-(decimalPlaces : ℤ))
  if 1 ≤ decimalPlaces ∧ 309 ≤ (maxDigits : ℤ) - (decimalPlaces : ℤ) then
    .error (.overflowError "int too large to convert to float")
  else if maxFieldValue < maxFloatValue ∧ decimalPlaces ≤ 7 then .ok "float32"
  else .ok "float64"

/-- `TypesenseCollectionUtils.handle_typesense_field_type`: name `id` short
circuits to `string`; otherwise the class is looked up in the table (failure is
`RequestMalformed`), and a `DecimalField` is then routed through
`handle_decimal_field` (whose `OverflowError` propagates uncaught). -/
def handle_typesense_field_type (valid_types : StorageType → Option String)
    (field : ModelField) : Except TSError String :=
  if field.name = "id" then .ok "string"
  else
    match valid_types field.storageType with
    | none => .error (.requestMalformed "Field type is not supported.")
    | some typesenseType =>
      match field.storageType with
      | .decimalField maxDigits decimalPlaces =>
        handle_decimal_field maxDigits decimalPlaces
      | _ => .ok typesenseType

/-- `TypesenseCollectionUtils.is_composite_foreign_key`:
`len(field.related_fields) > 1`. -/
def is_composite_foreign_key (fk : ForeignKeyField) : Bool :=
  !fk.relatedFieldsTail.isEmpty

/-- `TypesenseCollectionUtils.handle_composite_foreign_key`. -/
def handle_composite_foreign_key (fk : ForeignKeyField) : Except TSError Unit :=
  if is_composite_foreign_key fk then
    .error (.requestMalformed "Composite key is not allowed")
  else .ok ()

/-- `TypesenseCollectionUtils.is_self_reference`: `field.related_model == model`. -/
def is_self_reference (modelId relatedModelId : Nat) : Bool :=
  relatedModelId == modelId

/-- `TypesenseCollectionUtils.raise_on_self_reference`. -/
def raise_on_self_reference (modelId relatedModelId : Nat) : Except TSError Unit :=
  if is_self_reference modelId relatedModelId then
    .error (.requestMalformed "Self reference is not allowed.")
  else .ok ()

/-- `TypesenseCollectionUtils.should_skip_field`:
`field.name == 'id' and not override_id`. -/
def should_skip_field (fieldName : String) (overrideId : Bool) : Bool :=
  fieldName == "id" && !overrideId

/-- `TypesenseCollectionUtils.is_field_indexed`:
`field not in skip_index_fields or field in index_fields` (for a scalar field). -/
def is_field_indexed (f : ModelField) (skipIndexFields : Finset SkipEntry)
    (indexFields : Finset ModelField) : Bool :=
  decide (SkipEntry.scalar f ∉ skipIndexFields) || decide (f ∈ indexFields)

/-- `get_non_relation_fields_in_set` applied to `model._meta.get_fields()`:
the scalar (`models.Field` and not `is_relation`) members. -/
def get_non_relation_fields (l : List MetaField) : Finset ModelField :=
  l.foldr (fun mf acc => match mf with | .scalar f => insert f acc | _ => acc) ∅

/-- `get_non_relation_fields_in_set` applied to the loosely typed
`skip_index_fields` set. -/
def get_non_relation_skip_fields (skip : Finset SkipEntry) : Finset ModelField :=
  skip.biUnion (fun e => match e with | .scalar f => {f} | _ => ∅)

/-- The `model_references` set of `get_mismatched_relations`: fields of the
model that are `ForeignKey` with `many_to_one` (always true of the
`foreignKey` constructor here). -/
def model_references (m : DjangoModel) : Finset ForeignKeyField :=
  m.metaFields.foldr (fun mf acc => match mf with | .foreignKey fk => insert fk acc | _ => acc) ∅

/-- The `model_referenced_by` set of `get_mismatched_relations`: fields of the
model that are `ManyToOneRel` with `one_to_many`. -/
def model_referenced_by (m : DjangoModel) : Finset ManyToOneRelField :=
  m.metaFields.foldr (fun mf acc => match mf with | .manyToOneRel r => insert r acc | _ => acc) ∅

/-- `TypesenseCollectionUtils.has_multiple_of_same_field_name`: the set holds
two distinct fields sharing a name.  (The Python loop over the set returns
`True` exactly when two distinct members collide on `name`.) -/
def has_multiple_of_same_field_name (s : Finset ModelField) : Prop :=
  ∃ f ∈ s, ∃ g ∈ s, f ≠ g ∧ f.name = g.name

instance (s : Finset ModelField) : Decidable (has_multiple_of_same_field_name s) := by
  unfold has_multiple_of_same_field_name
  infer_instance

/-- The caller-facing parameters of `TypesenseCollection.__init__`
(`CollectionParams`), with the same defaults. -/
structure CollectionSpec where
  indexFields : Finset ModelField := ∅
  skipIndexFields : Finset SkipEntry := ∅
  parents : Finset ForeignKeyField := ∅
  children : Finset ManyToOneRelField := ∅
  geopoints : Finset (ModelField × ModelField) := ∅
  facets : SetOrAll FacetEntry := .explicitSet ∅
  detailedParents : SetOrAll ForeignKeyField := .explicitSet ∅
  detailedChildren : SetOrAll ManyToOneRelField := .explicitSet ∅
  defaultSortingField : Option ModelField := none
  useJoins : Bool := false
  overrideId : Bool := false

/-- Result dictionary of `process_field` / `process_relation_field` (the
`Field` TypedDict: empty, or exactly one of the three keys). -/
inductive Processed where
  | empty
  | nonRelationField (f : ModelField)
  | parentField (fk : ForeignKeyField)
  | childField (r : ManyToOneRelField)
deriving DecidableEq

/-- `TypesenseCollectionUtils.process_relation_field`.  A `ForeignKey` or a
`ForeignObjectRel` is first checked for self reference; `many_to_many`
fields are rejected (`ManyToManyField` is neither a `ForeignKey` nor a
`ForeignObjectRel`, so it skips the self-reference check); a many-to-one
`ForeignKey` becomes the parent entry, a one-to-many `ManyToOneRel` the child
entry; anything else yields the empty dictionary. -/
def process_relation_field (mf : MetaField) (modelId : Nat) : Except TSError Processed :=
  match mf with
  | .foreignKey fk => do
    let _ ← raise_on_self_reference modelId fk.relatedModelId
    .ok (.parentField fk)
  | .manyToOneRel r => do
    let _ ← raise_on_self_reference modelId r.relatedModelId
    .ok (.childField r)
  | .manyToManyRel _ _ relatedModelId => do
    let _ ← raise_on_self_reference modelId relatedModelId
    .error (.requestMalformed "Implicit Many to many field is not allowed.")
  | .manyToManyField _ _ _ =>
    .error (.requestMalformed "Implicit Many to many field is not allowed.")
  | .scalar _ => .ok .empty
  | .genericForeignKey _ => .ok .empty

/-- `TypesenseCollectionUtils.process_field`: generic foreign keys are
rejected; the `id`-named field is skipped unless `override_id`; an indexed
scalar field becomes the non-relation entry; everything else goes through
`process_relation_field`. -/
def process_field (mf : MetaField) (indexFields : Finset ModelField)
    (skipIndexFields : Finset SkipEntry) (overrideId : Bool) (model : DjangoModel) :
    Except TSError Processed :=
  match mf with
  | .genericForeignKey _ => .error (.requestMalformed "Generic foreign keys are not allowed.")
  | _ =>
    if should_skip_field mf.fieldName overrideId then .ok .empty
    else
      match mf with
      | .scalar f =>
        if is_field_indexed f skipIndexFields indexFields then .ok (.nonRelationField f)
        else process_relation_field mf model.id
      | _ => process_relation_field mf model.id

/-- The `FieldSet` TypedDict returned by `_handle_implicit_fields`. -/
structure FieldSets where
  nonRelationFields : Finset ModelField
  parents : Finset ForeignKeyField
  children : Finset ManyToOneRelField
deriving DecidableEq

/-- One step of the `_handle_implicit_fields` loop body: process the field and
add the result to the matching set. -/
def implicit_step (model : DjangoModel) (spec : CollectionSpec) (acc : FieldSets)
    (mf : MetaField) : Except TSError FieldSets := do
  let processed ← process_field mf spec.indexFields spec.skipIndexFields spec.overrideId model
  match processed with
  | .empty => pure acc
  | .nonRelationField f => pure { acc with nonRelationFields := insert f acc.nonRelationFields }
  | .parentField fk => pure { acc with parents := insert fk acc.parents }
  | .childField r => pure { acc with children := insert r acc.children }

/-- `TypesenseCollection._handle_implicit_fields`: walk
`model._meta.get_fields()`, process each field, and accumulate the three
result sets. -/
def handle_implicit_fields (model : DjangoModel) (spec : CollectionSpec) :
    Except TSError FieldSets :=
  model.metaFields.foldlM (implicit_step model spec) ⟨∅, ∅, ∅⟩

/-- `TypesenseCollection._handle_explicit_fields`, in source order:
index/skip intersection, geopoints present in index fields, relations in
index fields (vacuous here, since `indexFields` is typed to scalar
descriptors), the two non-fatal mismatch warnings (not modelled), duplicate
field names, explicit relations not on the model (parents reported first),
and the geopoint member-type check. -/
def handle_explicit_fields (model : DjangoModel) (spec : CollectionSpec) :
    Except TSError FieldSets :=
  if (spec.indexFields ∩ get_non_relation_skip_fields spec.skipIndexFields).Nonempty then
    .error (.requestMalformed "Fields are present in both index and skip index fields.")
  else if ∃ g ∈ spec.geopoints, g.1 ∈ spec.indexFields ∨ g.2 ∈ spec.indexFields then
    .error (.requestMalformed "Geopoints are already present in index fields.")
  else if has_multiple_of_same_field_name spec.indexFields then
    .error (.requestMalformed "Field names must be unique.")
  else if (spec.parents \ model_references model).Nonempty then
    .error (.requestMalformed "Model has no foreign relations (parents).")
  else if (spec.children \ model_referenced_by model).Nonempty then
    .error (.requestMalformed "Model has no foreign relations (children).")
  else if ∃ g ∈ spec.geopoints,
      is_mapped_geopoint_type g.1.storageType = false ∨
      is_mapped_geopoint_type g.2.storageType = false then
    .error (.requestMalformed "Geopoint type is not supported.")
  else .ok ⟨spec.indexFields, spec.parents, spec.children⟩

/-- `TypesenseCollection._handle_fields`:
`any([index_fields, parents, children, geopoints])` selects explicit mode
(`skip_index_fields` plays no part in the trigger); otherwise the implicit
walk runs (its mismatched-skips warning is non-fatal and not modelled). -/
def handle_fields (model : DjangoModel) (spec : CollectionSpec) : Except TSError FieldSets :=
  if spec.indexFields.Nonempty ∨ spec.parents.Nonempty ∨
      spec.children.Nonempty ∨ spec.geopoints.Nonempty then
    handle_explicit_fields model spec
  else
    handle_implicit_fields model spec

/-- `TypesenseCollection._handle_default_sorting_field`, with its three checks
in source order: the `id` name, presence in the model's own scalar fields or
the resolved index fields, and exact-class membership in
`mapped_sortable_types`. -/
def handle_default_sorting_field (nonRelationModelFields : Finset ModelField)
    (indexFields : Finset ModelField) (dsf : Option ModelField) :
    Except TSError (Option ModelField) :=
  match dsf with
  | none => .ok none
  | some field =>
    if field.name = "id" then
      .error (.requestMalformed "Default sorting field cannot be the ID field.")
    else if field ∉ nonRelationModelFields ∧ field ∉ indexFields then
      .error (.requestMalformed "Default sorting field must be present schema.")
    else if is_mapped_sortable_type field.storageType = false then
      .error (.requestMalformed "Default sorting field must be of type Integer, Float or Decimal.")
    else .ok (some field)

/-- `common.utils.ensure_is_subset_or_all`. -/
def ensure_is_subset_or_all {α : Type} [DecidableEq α] (inputSet : SetOrAll α)
    (finalSet : Finset α) : Except TSError (Finset α) :=
  match inputSet with
  | .all => .ok finalSet
  | .explicitSet s =>
    if s ⊆ finalSet then .ok s
    else .error (.requestMalformed "Input set must be a subset of the final set.")

/-- One entry of the `_handle_typesense_fields` list comprehension.  The
`'optional'` entry is commented out in the source, so the emitted dictionary
has no `optional` key. -/
def scalar_api_field (facets : Finset FacetEntry) (skip : Finset SkipEntry)
    (index : Finset ModelField) (f : ModelField) : APIField :=
  { name := f.name
  , type := (handle_typesense_field_type mapped_field_types f).toOption.getD ""
  , facet := some (decide (FacetEntry.scalar f ∈ facets))
  , index := some (is_field_indexed f skip index)
  , optional := none }

/-- `TypesenseCollection._handle_typesense_fields`: one dictionary per member
of `index_fields | non-relation skip fields`.  Python iterates the set in
unspecified order, so the result is embedded as the set of emitted
dictionaries, and a type-mapping failure (whose message would name the first
offending field in iteration order) is canonicalized to one message. -/
def handle_typesense_fields (facets : Finset FacetEntry) (skip : Finset SkipEntry)
    (index : Finset ModelField) : Except TSError (Finset APIField) :=
  let domain := index ∪ get_non_relation_skip_fields skip
  if ∀ f ∈ domain, (handle_typesense_field_type mapped_field_types f).isOk then
    .ok (domain.image (scalar_api_field facets skip index))
  else .error (.requestMalformed "Field type is not supported.")

/-- One entry of the `_handle_typesense_geopoints` list comprehension.  The
source destructures each pair as `for long, lat in self.geopoints` and emits
`'name': f'{long}_{lat}'`, formatting the two Django field objects themselves
(`Field.__str__`), not their `name` attributes. -/
def geopoint_api_field (facets : Finset FacetEntry) (skip : Finset SkipEntry)
    (index : Finset ModelField) (g : ModelField × ModelField) : APIField :=
  { name := fieldStr g.1 ++ "_" ++ fieldStr g.2
  , type := "geopoint"
  , facet := some (decide (FacetEntry.scalar g.2 ∈ facets) || decide (FacetEntry.scalar g.1 ∈ facets))
  , index := some (is_field_indexed g.2 skip index || is_field_indexed g.1 skip index)
  , optional := none }

/-- `TypesenseCollection._handle_typesense_geopoints`: one field per pair. -/
def handle_typesense_geopoints (facets : Finset FacetEntry) (skip : Finset SkipEntry)
    (index : Finset ModelField) (geopoints : Finset (ModelField × ModelField)) :
    Finset APIField :=
  geopoints.image (geopoint_api_field facets skip index)

/-- `TypesenseCollectionUtils.join_on_field`: composite check, self-reference
check, then the dictionary built from `related_fields[0]` and the related
model's snake-cased verbose name.  (`get_related_model_meta` and the
verbose-name string checks always succeed here, `relatedModelVerboseName`
being a `String`.) -/
def join_on_field (model : DjangoModel) (skip : Finset SkipEntry)
    (facets : Finset FacetEntry) (fk : ForeignKeyField)
    (valid_types : StorageType → Option String) : Except TSError APIField := do
  let _ ← handle_composite_foreign_key fk
  let _ ← raise_on_self_reference model.id fk.relatedModelId
  let relatedField := fk.relatedFieldsHead
  let relatedModelNameSnakeCase := snake_case fk.relatedModelVerboseName
  let fieldType ← handle_typesense_field_type valid_types relatedField
  .ok { name := fk.name ++ "_" ++ relatedField.name
      , type := fieldType
      , reference := some (relatedModelNameSnakeCase ++ "." ++ relatedField.name)
      , index := some (decide (SkipEntry.foreignKey fk ∉ skip))
      , facet := some (decide (FacetEntry.foreignKey fk ∈ facets))
      , optional := none }

/-- The dictionary `join_on_field` produces when it succeeds. -/
def join_api_field (skip : Finset SkipEntry) (facets : Finset FacetEntry)
    (fk : ForeignKeyField) : APIField :=
  { name := fk.name ++ "_" ++ fk.relatedFieldsHead.name
  , type := (handle_typesense_field_type mapped_field_types fk.relatedFieldsHead).toOption.getD ""
  , reference := some (snake_case fk.relatedModelVerboseName ++ "." ++ fk.relatedFieldsHead.name)
  , index := some (decide (SkipEntry.foreignKey fk ∉ skip))
  , facet := some (decide (FacetEntry.foreignKey fk ∈ facets))
  , optional := none }

/-- The join loop of `_handle_typesense_relations`: `join_on_field` on every
parent.  Python iterates the set in unspecified order; a failure is
canonicalized by kind, in the order the checks occur inside `join_on_field`
(composite, then self reference, then field type). -/
def join_fields (model : DjangoModel) (skip : Finset SkipEntry)
    (facets : Finset FacetEntry) (parents : Finset ForeignKeyField) :
    Except TSError (Finset APIField) :=
  if ∃ fk ∈ parents, is_composite_foreign_key fk then
    .error (.requestMalformed "Composite key is not allowed")
  else if ∃ fk ∈ parents, is_self_reference model.id fk.relatedModelId then
    .error (.requestMalformed "Self reference is not allowed.")
  else if ∃ fk ∈ parents,
      ¬(handle_typesense_field_type mapped_field_types fk.relatedFieldsHead).isOk then
    .error (.requestMalformed "Field type is not supported.")
  else .ok (parents.image (join_api_field skip facets))

/-- `TypesenseCollection._handle_typesense_relations`: join fields when
`use_joins`, then an `object` field per detailed parent and an `object[]`
field per detailed child. -/
def handle_typesense_relations (model : DjangoModel) (skip : Finset SkipEntry)
    (facets : Finset FacetEntry) (parents : Finset ForeignKeyField)
    (detailedParents : Finset ForeignKeyField)
    (detailedChildren : Finset ManyToOneRelField) (useJoins : Bool) :
    Except TSError (Finset APIField) := do
  let joins ← if useJoins then join_fields model skip facets parents else pure (∅ : Finset APIField)
  let detailedParentFields := detailedParents.image (fun r =>
    { name := r.name
    , type := "object"
    , index := some (decide (SkipEntry.foreignKey r ∉ skip))
    , facet := some false } : ForeignKeyField → APIField)
  let detailedChildFields := detailedChildren.image (fun c =>
    { name := c.name
    , type := "object[]"
    , index := some (decide (SkipEntry.manyToOneRel c ∉ skip))
    , facet := some false } : ManyToOneRelField → APIField)
  .ok (joins ∪ detailedParentFields ∪ detailedChildFields)

/-- The state `TypesenseCollection.__init__` leaves behind on success. -/
structure ResolvedCollection where
  name : String
  indexFields : Finset ModelField
  skipIndexFields : Finset SkipEntry
  parents : Finset ForeignKeyField
  children : Finset ManyToOneRelField
  geopoints : Finset (ModelField × ModelField)
  facets : Finset FacetEntry
  detailedParents : Finset ForeignKeyField
  detailedChildren : Finset ManyToOneRelField
  defaultSortingField : Option ModelField
  typesenseFields : Finset APIField
  typesenseRelations : Finset APIField
deriving DecidableEq

/-- `TypesenseCollection.__init__` after client/model validation, in source
order: `_handle_fields`, `_handle_default_sorting_field`, the facet subset
resolution against `index_fields | parents`, the detailed children and
parents subset resolutions, `_handle_facets` (warning only, not modelled),
`_handle_typesense_fields`, `_handle_typesense_relations`, and the geopoint
fields extension. -/
def derive (model : DjangoModel) (spec : CollectionSpec) :
    Except TSError ResolvedCollection := do
  let name := snake_case model.verboseName
  let nonRelationModelFields := get_non_relation_fields model.metaFields
  let fieldSets ← handle_fields model spec
  let indexFields := fieldSets.nonRelationFields
  let parents := fieldSets.parents
  let children := fieldSets.children
  let defaultSortingField ←
    handle_default_sorting_field nonRelationModelFields indexFields spec.defaultSortingField
  let facetableFields :=
    indexFields.image FacetEntry.scalar ∪ parents.image FacetEntry.foreignKey
  let facets ← ensure_is_subset_or_all spec.facets facetableFields
  let detailedChildren ← ensure_is_subset_or_all spec.detailedChildren children
  let detailedParents ← ensure_is_subset_or_all spec.detailedParents parents
  let typesenseFields ← handle_typesense_fields facets spec.skipIndexFields indexFields
  let typesenseRelations ←
    handle_typesense_relations model spec.skipIndexFields facets parents
      detailedParents detailedChildren spec.useJoins
  let geopointFields :=
    handle_typesense_geopoints facets spec.skipIndexFields indexFields spec.geopoints
  .ok { name := name
      , indexFields := indexFields
      , skipIndexFields := spec.skipIndexFields
      , parents := parents
      , children := children
      , geopoints := spec.geopoints
      , facets := facets
      , detailedParents := detailedParents
      , detailedChildren := detailedChildren
      , defaultSortingField := defaultSortingField
      , typesenseFields := typesenseFields ∪ geopointFields
      , typesenseRelations := typesenseRelations }

/-- Index fields of a derivation outcome (`∅` on failure). -/
def resolvedIndexFields (e : Except TSError ResolvedCollection) : Finset ModelField :=
  match e with
  | .ok r => r.indexFields
  | .error _ => ∅

/-- Parents of a derivation outcome (`∅` on failure). -/
def resolvedParents (e : Except TSError ResolvedCollection) : Finset ForeignKeyField :=
  match e with
  | .ok r => r.parents
  | .error _ => ∅

/-- Children of a derivation outcome (`∅` on failure). -/
def resolvedChildren (e : Except TSError ResolvedCollection) : Finset ManyToOneRelField :=
  match e with
  | .ok r => r.children
  | .error _ => ∅

/-- Facets of a derivation outcome (`∅` on failure). -/
def resolvedFacets (e : Except TSError ResolvedCollection) : Finset FacetEntry :=
  match e with
  | .ok r => r.facets
  | .error _ => ∅

/-- Default sorting field of a derivation outcome (`none` on failure). -/
def resolvedDefaultSortingField (e : Except TSError ResolvedCollection) : Option ModelField :=
  match e with
  | .ok r => r.defaultSortingField
  | .error _ => none

/-- Emitted schema fields of a derivation outcome (`∅` on failure). -/
def resolvedTypesenseFields (e : Except TSError ResolvedCollection) : Finset APIField :=
  match e with
  | .ok r => r.typesenseFields
  | .error _ => ∅

/-- Emitted relation fields of a derivation outcome (`∅` on failure). -/
def resolvedTypesenseRelations (e : Except TSError ResolvedCollection) : Finset APIField :=
  match e with
  | .ok r => r.typesenseRelations
  | .error _ => ∅

/-- Scalar fields of the implicit walk: the non-relation fields of the list
that are neither skipped by name (`should_skip_field`) nor excluded by
`is_field_indexed`. -/
def implicit_scalars (l : List MetaField) (spec : CollectionSpec) : Finset ModelField :=
  l.foldr
    (fun mf acc =>
      match mf with
      | .scalar f =>
        if should_skip_field f.name spec.overrideId = false ∧
            is_field_indexed f spec.skipIndexFields spec.indexFields = true then
          insert f acc
        else acc
      | _ => acc)
    ∅

/-- Parent relations of the implicit walk: the foreign keys of the list that
are not skipped by name. -/
def implicit_parent_rels (l : List MetaField) (spec : CollectionSpec) :
    Finset ForeignKeyField :=
  l.foldr
    (fun mf acc =>
      match mf with
      | .foreignKey fk =>
        if should_skip_field fk.name spec.overrideId = false then insert fk acc else acc
      | _ => acc)
    ∅

/-- Child relations of the implicit walk: the reverse many-to-one relations of
the list that are not skipped by name. -/
def implicit_child_rels (l : List MetaField) (spec : CollectionSpec) :
    Finset ManyToOneRelField :=
  l.foldr
    (fun mf acc =>
      match mf with
      | .manyToOneRel r =>
        if should_skip_field r.name spec.overrideId = false then insert r acc else acc
      | _ => acc)
    ∅

/-
Concrete fixtures used by counterexamples and witnesses.  Labels and names
follow the repository's own test models
(`typesense_integration/tests/collections/models.py`).
-/

/-- Scalar `title` field of an `Article`-like entity. -/
def titleF : ModelField := ⟨11, "library.Article", "title", .charField, false, false⟩

/-- Scalar `content` field of the same entity. -/
def contentF : ModelField := ⟨12, "library.Article", "content", .textField, false, false⟩

/-- Auto primary key of the same entity. -/
def articleIdF : ModelField := ⟨10, "library.Article", "id", .bigAutoField, false, true⟩

/-- An entity with three scalar fields and no relations. -/
def articleModel : DjangoModel :=
  ⟨1, "article", [.scalar articleIdF, .scalar titleF, .scalar contentF]⟩

/-- A spec that only skips `content`: implicit discovery still runs. -/
def skipContentSpec : CollectionSpec := { skipIndexFields := {SkipEntry.scalar contentF} }

/-- Auto primary key of the `Author` entity. -/
def authorIdF : ModelField := ⟨20, "collections.Author", "id", .bigAutoField, false, true⟩

/-- Auto primary key of the `Book` entity. -/
def bookIdF : ModelField := ⟨30, "collections.Book", "id", .bigAutoField, false, true⟩

/-- Scalar `title` field of `Book`. -/
def bookTitleF : ModelField := ⟨31, "collections.Book", "title", .charField, false, false⟩

/-- Scalar `published_date` field of `Book`. -/
def publishedDateF : ModelField := ⟨32, "collections.Book", "published_date", .dateField, false, false⟩

/-- The `Book.author` many-to-one relation, targeting `Author.id`. -/
def authorFK : ForeignKeyField := ⟨33, "author", 2, "author", authorIdF, [], false⟩

/-- The reverse `Book.chapter` one-to-many relation. -/
def chapterRel : ManyToOneRelField := ⟨34, "chapter", 4⟩

/-- The `Book` entity. -/
def bookModel : DjangoModel :=
  ⟨3, "book",
    [.scalar bookIdF, .scalar bookTitleF, .foreignKey authorFK,
     .scalar publishedDateF, .manyToOneRel chapterRel]⟩

/-- A `title` field of a different entity (`Chapter`), sharing the name. -/
def chapterTitleF : ModelField := ⟨41, "collections.Chapter", "title", .charField, false, false⟩

/-- Explicit index selection with a default sorting field that is a model
field but is in neither the index nor the skip set. -/
def c5Spec : CollectionSpec :=
  { indexFields := {bookTitleF}, defaultSortingField := some publishedDateF }

/-- A sorting-field spec whose field is in the index set but not sortable. -/
def c5BadTypeSpec : CollectionSpec :=
  { indexFields := {bookTitleF}, defaultSortingField := some bookTitleF }

/-- Two distinct descriptors sharing the output name `title`. -/
def c9DupSpec : CollectionSpec := { indexFields := {bookTitleF, chapterTitleF} }

/-- The same descriptor supplied twice. -/
def c9SameSpec : CollectionSpec := { indexFields := insert bookTitleF {bookTitleF} }

/-- An explicit facet that is outside `indexFields ∪ parents`. -/
def c3FailSpec : CollectionSpec :=
  { indexFields := {bookTitleF}, facets := .explicitSet {FacetEntry.scalar publishedDateF} }

/-- Joins enabled on the `Book.author` parent. -/
def c6JoinSpec : CollectionSpec := { parents := {authorFK}, useJoins := true }

/-- Auto primary key of a self-referential `Employee` entity. -/
def employeeIdF : ModelField := ⟨50, "hr.Employee", "id", .bigAutoField, false, true⟩

/-- Scalar `name` field of `Employee`. -/
def employeeNameF : ModelField := ⟨51, "hr.Employee", "name", .charField, false, false⟩

/-- The `Employee.boss` many-to-one relation targeting `Employee` itself. -/
def bossFK : ForeignKeyField := ⟨52, "boss", 5, "employee", employeeIdF, [], true⟩

/-- An entity with a self-referential many-to-one relation. -/
def employeeModel : DjangoModel :=
  ⟨5, "employee", [.scalar employeeIdF, .scalar employeeNameF, .foreignKey bossFK]⟩

/-- The self relation supplied explicitly, joins disabled. -/
def c4NoJoinSpec : CollectionSpec := { parents := {bossFK} }

/-- The self relation supplied explicitly, joins enabled. -/
def c4JoinSpec : CollectionSpec := { parents := {bossFK}, useJoins := true }

/-- Auto primary key of the `GeoPoint` entity. -/
def geoIdF : ModelField := ⟨60, "collections.GeoPoint", "id", .bigAutoField, false, true⟩

/-- Float `lat` member of the geopoint pair. -/
def latF : ModelField := ⟨61, "collections.GeoPoint", "lat", .floatField, false, false⟩

/-- Decimal `long` member of the geopoint pair. -/
def longF : ModelField := ⟨62, "collections.GeoPoint", "long", .decimalField 9 6, false, false⟩

/-- Scalar `name` field of `GeoPoint`. -/
def geoNameF : ModelField := ⟨63, "collections.GeoPoint", "name", .charField, false, false⟩

/-- The `GeoPoint` entity. -/
def geoModel : DjangoModel :=
  ⟨6, "geo point", [.scalar geoIdF, .scalar latF, .scalar longF, .scalar geoNameF]⟩

/-- Index `name` and emit the `(lat, long)` geopoint pair. -/
def geoSpec : CollectionSpec := { indexFields := {geoNameF}, geopoints := {(latF, longF)} }

/-- A nullable scalar field (`OptionalFields.optional`, `null=True`). -/
def optionalF : ModelField := ⟨70, "collections.OptionalFields", "optional", .charField, true, false⟩

/-- Auto primary key of `OptionalFields`. -/
def optIdF : ModelField := ⟨71, "collections.OptionalFields", "id", .bigAutoField, false, true⟩

/-- The `OptionalFields` entity, reduced to the fields the claim needs. -/
def optModel : DjangoModel := ⟨7, "optional fields", [.scalar optIdF, .scalar optionalF]⟩

/-- Index only the nullable field. -/
def optSpec : CollectionSpec := { indexFields := {optionalF} }

/-- A field named `id` whose storage class (`BinaryField`) is absent from the
type table. -/
def weirdIdF : ModelField := ⟨80, "x.Thing", "id", .binaryField, false, true⟩

/-- A primary-key field that is not named `id`. -/
def pkCodeF : ModelField := ⟨81, "x.Thing", "code", .bigAutoField, false, true⟩

/-- An ordinary (non-primary-key) field with the same storage class. -/
def plainCodeF : ModelField := ⟨82, "x.Other", "serial", .bigAutoField, false, false⟩

/-- The resolved collection the engine produces for `articleModel` under
`skipContentSpec`. -/
def articleResolved : ResolvedCollection :=
  { name := "article"
  , indexFields := {titleF}
  , skipIndexFields := {SkipEntry.scalar contentF}
  , parents := ∅
  , children := ∅
  , geopoints := ∅
  , facets := ∅
  , detailedParents := ∅
  , detailedChildren := ∅
  , defaultSortingField := none
  , typesenseFields :=
      { { name := "title", type := "string", facet := some false
        , index := some true, reference := none, optional := none }
      , { name := "content", type := "string", facet := some false
        , index := some false, reference := none, optional := none } }
  , typesenseRelations := ∅ }

/-- The resolved collection the engine produces for `bookModel` under
`c5Spec`. -/
def bookC5Resolved : ResolvedCollection :=
  { name := "book"
  , indexFields := {bookTitleF}
  , skipIndexFields := ∅
  , parents := ∅
  , children := ∅
  , geopoints := ∅
  , facets := ∅
  , detailedParents := ∅
  , detailedChildren := ∅
  , defaultSortingField := some publishedDateF
  , typesenseFields :=
      { { name := "title", type := "string", facet := some false
        , index := some true, reference := none, optional := none } }
  , typesenseRelations := ∅ }

/-
General lemmas about the embedding, shared by the claim theorems.
-/

theorem exceptBind_ok {α β : Type} {x : Except TSError α} {f : α → Except TSError β} {b : β} :
    x >>= f = Except.ok b ↔ ∃ a, x = Except.ok a ∧ f a = Except.ok b := by
  cases x with
  | ok a => simp [Bind.bind, Except.bind]
  | error e => simp [Bind.bind, Except.bind]

theorem exceptBind_error_left {α β : Type} {x : Except TSError α} {f : α → Except TSError β}
    {e : TSError} (h : x = Except.error e) : x >>= f = Except.error e := by
  subst h
  rfl

theorem exceptBind_ok_left {α β : Type} {x : Except TSError α} {f : α → Except TSError β}
    {a : α} (h : x = Except.ok a) : x >>= f = f a := by
  subst h
  rfl

theorem mem_implicit_scalars {l : List MetaField} {spec : CollectionSpec} {f : ModelField} :
    f ∈ implicit_scalars l spec ↔
      MetaField.scalar f ∈ l ∧ should_skip_field f.name spec.overrideId = false ∧
        is_field_indexed f spec.skipIndexFields spec.indexFields = true := by
  induction l with
  | nil => simp [implicit_scalars]
  | cons mf rest ih =>
    have hstep : implicit_scalars (mf :: rest) spec =
        (match mf with
          | .scalar g =>
            if should_skip_field g.name spec.overrideId = false ∧
                is_field_indexed g spec.skipIndexFields spec.indexFields = true then
              insert g (implicit_scalars rest spec)
            else implicit_scalars rest spec
          | _ => implicit_scalars rest spec) := rfl
    rw [hstep]
    cases mf with
    | scalar g =>
      by_cases hc : should_skip_field g.name spec.overrideId = false ∧
          is_field_indexed g spec.skipIndexFields spec.indexFields = true
      · simp only [if_pos hc, Finset.mem_insert, ih, List.mem_cons]
        constructor
        · rintro (rfl | ⟨hmem, h1, h2⟩)
          · exact ⟨Or.inl rfl, hc.1, hc.2⟩
          · exact ⟨Or.inr hmem, h1, h2⟩
        · rintro ⟨hmem | hmem, h1, h2⟩
          · cases hmem
            exact Or.inl rfl
          · exact Or.inr ⟨hmem, h1, h2⟩
      · simp only [if_neg hc, ih, List.mem_cons]
        constructor
        · rintro ⟨hmem, h1, h2⟩
          exact ⟨Or.inr hmem, h1, h2⟩
        · rintro ⟨hmem | hmem, h1, h2⟩
          · cases hmem
            exact absurd ⟨h1, h2⟩ hc
          · exact ⟨hmem, h1, h2⟩
    | foreignKey fk => simp [ih]
    | manyToOneRel r => simp [ih]
    | manyToManyField a b c => simp [ih]
    | manyToManyRel a b c => simp [ih]
    | genericForeignKey n => simp [ih]

theorem mem_implicit_parent_rels {l : List MetaField} {spec : CollectionSpec}
    {fk : ForeignKeyField} :
    fk ∈ implicit_parent_rels l spec ↔
      MetaField.foreignKey fk ∈ l ∧ should_skip_field fk.name spec.overrideId = false := by
  induction l with
  | nil => simp [implicit_parent_rels]
  | cons mf rest ih =>
    have hstep : implicit_parent_rels (mf :: rest) spec =
        (match mf with
          | .foreignKey g =>
            if should_skip_field g.name spec.overrideId = false then
              insert g (implicit_parent_rels rest spec)
            else implicit_parent_rels rest spec
          | _ => implicit_parent_rels rest spec) := rfl
    rw [hstep]
    cases mf with
    | foreignKey g =>
      by_cases hc : should_skip_field g.name spec.overrideId = false
      · simp only [if_pos hc, Finset.mem_insert, ih, List.mem_cons]
        constructor
        · rintro (rfl | ⟨hmem, h1⟩)
          · exact ⟨Or.inl rfl, hc⟩
          · exact ⟨Or.inr hmem, h1⟩
        · rintro ⟨hmem | hmem, h1⟩
          · cases hmem
            exact Or.inl rfl
          · exact Or.inr ⟨hmem, h1⟩
      · simp only [if_neg hc, ih, List.mem_cons]
        constructor
        · rintro ⟨hmem, h1⟩
          exact ⟨Or.inr hmem, h1⟩
        · rintro ⟨hmem | hmem, h1⟩
          · cases hmem
            exact absurd h1 hc
          · exact ⟨hmem, h1⟩
    | scalar g => simp [ih]
    | manyToOneRel r => simp [ih]
    | manyToManyField a b c => simp [ih]
    | manyToManyRel a b c => simp [ih]
    | genericForeignKey n => simp [ih]

theorem mem_implicit_child_rels {l : List MetaField} {spec : CollectionSpec}
    {r : ManyToOneRelField} :
    r ∈ implicit_child_rels l spec ↔
      MetaField.manyToOneRel r ∈ l ∧ should_skip_field r.name spec.overrideId = false := by
  induction l with
  | nil => simp [implicit_child_rels]
  | cons mf rest ih =>
    have hstep : implicit_child_rels (mf :: rest) spec =
        (match mf with
          | .manyToOneRel g =>
            if should_skip_field g.name spec.overrideId = false then
              insert g (implicit_child_rels rest spec)
            else implicit_child_rels rest spec
          | _ => implicit_child_rels rest spec) := rfl
    rw [hstep]
    cases mf with
    | manyToOneRel g =>
      by_cases hc : should_skip_field g.name spec.overrideId = false
      · simp only [if_pos hc, Finset.mem_insert, ih, List.mem_cons]
        constructor
        · rintro (rfl | ⟨hmem, h1⟩)
          · exact ⟨Or.inl rfl, hc⟩
          · exact ⟨Or.inr hmem, h1⟩
        · rintro ⟨hmem | hmem, h1⟩
          · cases hmem
            exact Or.inl rfl
          · exact Or.inr ⟨hmem, h1⟩
      · simp only [if_neg hc, ih, List.mem_cons]
        constructor
        · rintro ⟨hmem, h1⟩
          exact ⟨Or.inr hmem, h1⟩
        · rintro ⟨hmem | hmem, h1⟩
          · cases hmem
            exact absurd h1 hc
          · exact ⟨hmem, h1⟩
    | scalar g => simp [ih]
    | foreignKey g => simp [ih]
    | manyToManyField a b c => simp [ih]
    | manyToManyRel a b c => simp [ih]
    | genericForeignKey n => simp [ih]

theorem implicit_foldlM_error {model : DjangoModel} {spec : CollectionSpec} :
    ∀ (l : List MetaField) (acc : FieldSets),
      (∃ mf ∈ l,
        (process_field mf spec.indexFields spec.skipIndexFields spec.overrideId model).isOk
          = false) →
      (l.foldlM (implicit_step model spec) acc).isOk = false := by
  intro l
  induction l with
  | nil =>
    intro acc h
    simp at h
  | cons mf rest ih =>
    intro acc h
    rw [List.foldlM_cons]
    rcases h with ⟨m, hm, herr⟩
    rcases List.mem_cons.mp hm with heq | hmem
    · subst heq
      cases hp : process_field m spec.indexFields spec.skipIndexFields spec.overrideId model with
      | error e =>
        have hstep : implicit_step model spec acc m = Except.error e := by
          simp [implicit_step, hp]
          rfl
        rw [exceptBind_error_left hstep]
        rfl
      | ok p =>
        rw [hp] at herr
        simp [Except.isOk, Except.toBool] at herr
    · cases hstep : implicit_step model spec acc mf with
      | error e => rfl
      | ok acc2 => exact ih acc2 ⟨m, hmem, herr⟩

theorem implicit_foldlM_ok {model : DjangoModel} {spec : CollectionSpec} :
    ∀ (l : List MetaField) (acc fs : FieldSets),
      l.foldlM (implicit_step model spec) acc = Except.ok fs →
      fs.nonRelationFields = acc.nonRelationFields ∪ implicit_scalars l spec ∧
      fs.parents = acc.parents ∪ implicit_parent_rels l spec ∧
      fs.children = acc.children ∪ implicit_child_rels l spec := by
  intro l
  induction l with
  | nil =>
    intro acc fs h
    simp [List.foldlM_nil, pure, Except.pure] at h
    subst h
    simp [implicit_scalars, implicit_parent_rels, implicit_child_rels]
  | cons mf rest ih =>
    intro acc fs h
    rw [List.foldlM_cons] at h
    rcases exceptBind_ok.mp h with ⟨acc2, hstep, hrest⟩
    rcases ih acc2 fs hrest with ⟨h1, h2, h3⟩
    cases mf with
    | scalar g =>
      rw [show implicit_scalars (MetaField.scalar g :: rest) spec =
            (if should_skip_field g.name spec.overrideId = false ∧
                is_field_indexed g spec.skipIndexFields spec.indexFields = true then
              insert g (implicit_scalars rest spec)
            else implicit_scalars rest spec) from rfl,
          show implicit_parent_rels (MetaField.scalar g :: rest) spec =
            implicit_parent_rels rest spec from rfl,
          show implicit_child_rels (MetaField.scalar g :: rest) spec =
            implicit_child_rels rest spec from rfl]
      by_cases hskip : should_skip_field g.name spec.overrideId = true
      · have hacc : acc2 = acc := by
          simp [implicit_step, process_field, MetaField.fieldName, hskip, Bind.bind, Except.bind, pure, Except.pure] at hstep
          exact hstep.symm
        subst hacc
        have hcond : ¬(should_skip_field g.name spec.overrideId = false ∧
            is_field_indexed g spec.skipIndexFields spec.indexFields = true) := by
          simp [hskip]
        simp only [if_neg hcond]
        exact ⟨h1, h2, h3⟩
      · have hskipf : should_skip_field g.name spec.overrideId = false := by
          simpa using hskip
        by_cases hidx : is_field_indexed g spec.skipIndexFields spec.indexFields = true
        · have hacc : acc2 = { acc with nonRelationFields := insert g acc.nonRelationFields } := by
            simp [implicit_step, process_field, MetaField.fieldName, hskipf, hidx, Bind.bind, Except.bind, pure, Except.pure] at hstep
            exact hstep.symm
          subst hacc
          have hcond : should_skip_field g.name spec.overrideId = false ∧
              is_field_indexed g spec.skipIndexFields spec.indexFields = true := ⟨hskipf, hidx⟩
          simp only [if_pos hcond]
          refine ⟨?_, h2, h3⟩
          rw [h1]
          simp [Finset.insert_union, Finset.union_insert]
        · have hidxf : is_field_indexed g spec.skipIndexFields spec.indexFields = false := by
            simpa using hidx
          have hacc : acc2 = acc := by
            simp [implicit_step, process_field, process_relation_field, MetaField.fieldName,
              hskipf, hidxf, Bind.bind, Except.bind, pure, Except.pure] at hstep
            exact hstep.symm
          subst hacc
          have hcond : ¬(should_skip_field g.name spec.overrideId = false ∧
              is_field_indexed g spec.skipIndexFields spec.indexFields = true) := by
            simp [hidxf]
          simp only [if_neg hcond]
          exact ⟨h1, h2, h3⟩
    | foreignKey fk =>
      rw [show implicit_scalars (MetaField.foreignKey fk :: rest) spec =
            implicit_scalars rest spec from rfl,
          show implicit_parent_rels (MetaField.foreignKey fk :: rest) spec =
            (if should_skip_field fk.name spec.overrideId = false then
              insert fk (implicit_parent_rels rest spec)
            else implicit_parent_rels rest spec) from rfl,
          show implicit_child_rels (MetaField.foreignKey fk :: rest) spec =
            implicit_child_rels rest spec from rfl]
      by_cases hskip : should_skip_field fk.name spec.overrideId = true
      · have hacc : acc2 = acc := by
          simp [implicit_step, process_field, MetaField.fieldName, hskip, Bind.bind, Except.bind, pure, Except.pure] at hstep
          exact hstep.symm
        subst hacc
        have hcond : ¬ should_skip_field fk.name spec.overrideId = false := by simp [hskip]
        simp only [if_neg hcond]
        exact ⟨h1, h2, h3⟩
      · have hskipf : should_skip_field fk.name spec.overrideId = false := by
          simpa using hskip
        by_cases hself : is_self_reference model.id fk.relatedModelId = true
        · exfalso
          simp [implicit_step, process_field, process_relation_field, MetaField.fieldName,
            raise_on_self_reference, hskipf, hself, Bind.bind, Except.bind] at hstep
        · have hselff : is_self_reference model.id fk.relatedModelId = false := by
            simpa using hself
          have hacc : acc2 = { acc with parents := insert fk acc.parents } := by
            simp [implicit_step, process_field, process_relation_field, MetaField.fieldName,
              raise_on_self_reference, hskipf, hselff, Bind.bind, Except.bind,
              pure, Except.pure] at hstep
            exact hstep.symm
          subst hacc
          simp only [if_pos hskipf]
          refine ⟨h1, ?_, h3⟩
          rw [h2]
          simp [Finset.insert_union, Finset.union_insert]
    | manyToOneRel r =>
      rw [show implicit_scalars (MetaField.manyToOneRel r :: rest) spec =
            implicit_scalars rest spec from rfl,
          show implicit_parent_rels (MetaField.manyToOneRel r :: rest) spec =
            implicit_parent_rels rest spec from rfl,
          show implicit_child_rels (MetaField.manyToOneRel r :: rest) spec =
            (if should_skip_field r.name spec.overrideId = false then
              insert r (implicit_child_rels rest spec)
            else implicit_child_rels rest spec) from rfl]
      by_cases hskip : should_skip_field r.name spec.overrideId = true
      · have hacc : acc2 = acc := by
          simp [implicit_step, process_field, MetaField.fieldName, hskip, Bind.bind, Except.bind, pure, Except.pure] at hstep
          exact hstep.symm
        subst hacc
        have hcond : ¬ should_skip_field r.name spec.overrideId = false := by simp [hskip]
        simp only [if_neg hcond]
        exact ⟨h1, h2, h3⟩
      · have hskipf : should_skip_field r.name spec.overrideId = false := by
          simpa using hskip
        by_cases hself : is_self_reference model.id r.relatedModelId = true
        · exfalso
          simp [implicit_step, process_field, process_relation_field, MetaField.fieldName,
            raise_on_self_reference, hskipf, hself, Bind.bind, Except.bind] at hstep
        · have hselff : is_self_reference model.id r.relatedModelId = false := by
            simpa using hself
          have hacc : acc2 = { acc with children := insert r acc.children } := by
            simp [implicit_step, process_field, process_relation_field, MetaField.fieldName,
              raise_on_self_reference, hskipf, hselff, Bind.bind, Except.bind,
              pure, Except.pure] at hstep
            exact hstep.symm
          subst hacc
          simp only [if_pos hskipf]
          refine ⟨h1, h2, ?_⟩
          rw [h3]
          simp [Finset.insert_union, Finset.union_insert]
    | manyToManyField a b c =>
      rw [show implicit_scalars (MetaField.manyToManyField a b c :: rest) spec =
            implicit_scalars rest spec from rfl,
          show implicit_parent_rels (MetaField.manyToManyField a b c :: rest) spec =
            implicit_parent_rels rest spec from rfl,
          show implicit_child_rels (MetaField.manyToManyField a b c :: rest) spec =
            implicit_child_rels rest spec from rfl]
      by_cases hskip : should_skip_field b spec.overrideId = true
      · have hacc : acc2 = acc := by
          simp [implicit_step, process_field, MetaField.fieldName, hskip, Bind.bind, Except.bind,
            pure, Except.pure] at hstep
          exact hstep.symm
        subst hacc
        exact ⟨h1, h2, h3⟩
      · exfalso
        have hskipf : should_skip_field b spec.overrideId = false := by simpa using hskip
        simp [implicit_step, process_field, process_relation_field,
          MetaField.fieldName, hskipf, Bind.bind, Except.bind] at hstep
    | manyToManyRel a b c =>
      rw [show implicit_scalars (MetaField.manyToManyRel a b c :: rest) spec =
            implicit_scalars rest spec from rfl,
          show implicit_parent_rels (MetaField.manyToManyRel a b c :: rest) spec =
            implicit_parent_rels rest spec from rfl,
          show implicit_child_rels (MetaField.manyToManyRel a b c :: rest) spec =
            implicit_child_rels rest spec from rfl]
      by_cases hskip : should_skip_field b spec.overrideId = true
      · have hacc : acc2 = acc := by
          simp [implicit_step, process_field, MetaField.fieldName, hskip, Bind.bind, Except.bind,
            pure, Except.pure] at hstep
          exact hstep.symm
        subst hacc
        exact ⟨h1, h2, h3⟩
      · exfalso
        have hskipf : should_skip_field b spec.overrideId = false := by simpa using hskip
        by_cases hself : is_self_reference model.id c = true
        · simp [implicit_step, process_field, process_relation_field,
            raise_on_self_reference, MetaField.fieldName, hskipf, hself,
            Bind.bind, Except.bind] at hstep
        · have hselff : is_self_reference model.id c = false := by simpa using hself
          simp [implicit_step, process_field, process_relation_field,
            raise_on_self_reference, MetaField.fieldName, hskipf, hselff,
            Bind.bind, Except.bind] at hstep
    | genericForeignKey n =>
      exfalso
      simp [implicit_step, process_field, Bind.bind, Except.bind] at hstep

theorem handle_implicit_fields_ok {model : DjangoModel} {spec : CollectionSpec}
    {fs : FieldSets} (h : handle_implicit_fields model spec = Except.ok fs) :
    fs.nonRelationFields = implicit_scalars model.metaFields spec ∧
    fs.parents = implicit_parent_rels model.metaFields spec ∧
    fs.children = implicit_child_rels model.metaFields spec := by
  have hfold := implicit_foldlM_ok model.metaFields ⟨∅, ∅, ∅⟩ fs h
  simpa using hfold

theorem derive_ok_elim {model : DjangoModel} {spec : CollectionSpec} {r : ResolvedCollection}
    (h : derive model spec = Except.ok r) :
    ∃ fs dsf facets dc dp tf tr,
      handle_fields model spec = Except.ok fs ∧
      handle_default_sorting_field (get_non_relation_fields model.metaFields)
        fs.nonRelationFields spec.defaultSortingField = Except.ok dsf ∧
      ensure_is_subset_or_all spec.facets
        (fs.nonRelationFields.image FacetEntry.scalar ∪ fs.parents.image FacetEntry.foreignKey)
        = Except.ok facets ∧
      ensure_is_subset_or_all spec.detailedChildren fs.children = Except.ok dc ∧
      ensure_is_subset_or_all spec.detailedParents fs.parents = Except.ok dp ∧
      handle_typesense_fields facets spec.skipIndexFields fs.nonRelationFields = Except.ok tf ∧
      handle_typesense_relations model spec.skipIndexFields facets fs.parents dp dc spec.useJoins
        = Except.ok tr ∧
      r = { name := snake_case model.verboseName
          , indexFields := fs.nonRelationFields
          , skipIndexFields := spec.skipIndexFields
          , parents := fs.parents
          , children := fs.children
          , geopoints := spec.geopoints
          , facets := facets
          , detailedParents := dp
          , detailedChildren := dc
          , defaultSortingField := dsf
          , typesenseFields := tf ∪
              handle_typesense_geopoints facets spec.skipIndexFields fs.nonRelationFields
                spec.geopoints
          , typesenseRelations := tr } := by
  unfold derive at h
  rcases exceptBind_ok.mp h with ⟨fs, h1, h⟩
  rcases exceptBind_ok.mp h with ⟨dsf, h2, h⟩
  rcases exceptBind_ok.mp h with ⟨facets, h3, h⟩
  rcases exceptBind_ok.mp h with ⟨dc, h4, h⟩
  rcases exceptBind_ok.mp h with ⟨dp, h5, h⟩
  rcases exceptBind_ok.mp h with ⟨tf, h6, h⟩
  rcases exceptBind_ok.mp h with ⟨tr, h7, h⟩
  refine ⟨fs, dsf, facets, dc, dp, tf, tr, h1, h2, h3, h4, h5, h6, h7, ?_⟩
  have := (Except.ok.injEq _ _).mp h
  exact this.symm

theorem derive_error_of_handle_fields {model : DjangoModel} {spec : CollectionSpec}
    {e : TSError} (h : handle_fields model spec = Except.error e) :
    derive model spec = Except.error e := by
  unfold derive
  rw [exceptBind_error_left h]

theorem derive_error_of_dsf {model : DjangoModel} {spec : CollectionSpec}
    {fs : FieldSets} {e : TSError} (h1 : handle_fields model spec = Except.ok fs)
    (h2 : handle_default_sorting_field (get_non_relation_fields model.metaFields)
      fs.nonRelationFields spec.defaultSortingField = Except.error e) :
    derive model spec = Except.error e := by
  unfold derive
  rw [exceptBind_ok_left h1, exceptBind_error_left h2]

theorem derive_error_of_facets {model : DjangoModel} {spec : CollectionSpec}
    {fs : FieldSets} {dsf : Option ModelField} {e : TSError}
    (h1 : handle_fields model spec = Except.ok fs)
    (h2 : handle_default_sorting_field (get_non_relation_fields model.metaFields)
      fs.nonRelationFields spec.defaultSortingField = Except.ok dsf)
    (h3 : ensure_is_subset_or_all spec.facets
      (fs.nonRelationFields.image FacetEntry.scalar ∪ fs.parents.image FacetEntry.foreignKey)
      = Except.error e) :
    derive model spec = Except.error e := by
  unfold derive
  rw [exceptBind_ok_left h1, exceptBind_ok_left h2, exceptBind_error_left h3]

theorem dsf_error_malformed {a b : Finset ModelField} {c : Option ModelField} {e : TSError}
    (h : handle_default_sorting_field a b c = Except.error e) :
    ∃ m, e = TSError.requestMalformed m := by
  unfold handle_default_sorting_field at h
  cases c with
  | none => simp at h
  | some f =>
    simp only [] at h
    split_ifs at h <;> simp only [Except.error.injEq] at h <;> exact ⟨_, h.symm⟩

theorem handle_explicit_fields_ok {model : DjangoModel} {spec : CollectionSpec}
    {fs : FieldSets} (h : handle_explicit_fields model spec = Except.ok fs) :
    fs = ⟨spec.indexFields, spec.parents, spec.children⟩ := by
  unfold handle_explicit_fields at h
  split_ifs at h
  all_goals first
    | exact Except.noConfusion h
    | exact ((Except.ok.injEq _ _).mp h).symm

theorem ensure_ok_subset {α : Type} [DecidableEq α] {i : SetOrAll α} {u out : Finset α}
    (h : ensure_is_subset_or_all i u = Except.ok out) :
    out ⊆ u ∧ (i = SetOrAll.all → out = u) ∧
      ∀ s : Finset α, i = SetOrAll.explicitSet s → out = s := by
  cases i with
  | all =>
    have hout : out = u := ((Except.ok.injEq _ _).mp h).symm
    subst hout
    exact ⟨Finset.Subset.refl _, fun _ => rfl, fun s hs => SetOrAll.noConfusion hs⟩
  | explicitSet s =>
    unfold ensure_is_subset_or_all at h
    simp only [] at h
    split_ifs at h with hsub
    · have hout : out = s := ((Except.ok.injEq _ _).mp h).symm
      subst hout
      refine ⟨hsub, fun hcon => SetOrAll.noConfusion hcon, fun t ht => ?_⟩
      cases ht
      rfl

theorem ensure_explicit_not_subset {α : Type} [DecidableEq α] {s u : Finset α}
    (h : ¬ s ⊆ u) :
    ensure_is_subset_or_all (SetOrAll.explicitSet s) u =
      Except.error (TSError.requestMalformed "Input set must be a subset of the final set.") := by
  unfold ensure_is_subset_or_all
  simp only []
  rw [if_neg h]

theorem join_fields_error_of_self_ref {model : DjangoModel} {skip : Finset SkipEntry}
    {facets : Finset FacetEntry} {parents : Finset ForeignKeyField} {fk : ForeignKeyField}
    (hmem : fk ∈ parents) (hself : is_self_reference model.id fk.relatedModelId = true) :
    ∃ e, join_fields model skip facets parents = Except.error e := by
  unfold join_fields
  split_ifs with h1 h2 h3
  · exact ⟨_, rfl⟩
  · exact ⟨_, rfl⟩
  · exact ⟨_, rfl⟩
  · exact absurd ⟨fk, hmem, hself⟩ h2

theorem handle_typesense_relations_error_of_join {model : DjangoModel}
    {skip : Finset SkipEntry} {facets : Finset FacetEntry} {parents : Finset ForeignKeyField}
    {dp : Finset ForeignKeyField} {dc : Finset ManyToOneRelField} {e : TSError}
    (h : join_fields model skip facets parents = Except.error e) :
    handle_typesense_relations model skip facets parents dp dc true = Except.error e := by
  unfold handle_typesense_relations
  rw [if_pos rfl]
  rw [exceptBind_error_left h]

/-
Claim theorems.
-/

/-- C2 (amended): outside the float-overflow domain the decimal rule returns
`float32` if and only if `10^(p-s) - 10^-s < 3.4e38` and `s ≤ 7`, and
`float64` otherwise; but when `s ≥ 1` and `p - s ≥ 309` the computation
instead raises an uncaught `OverflowError` (the integer `10^(p-s)` cannot be
converted to a double), so no type string is returned there.  In particular
`(9, 6)` maps to `float32` and `(19, 10)` and `(100, 2)` map to `float64`. -/
theorem decimal_width_rule :
    (∀ maxDigits decimalPlaces : Nat,
      (handle_decimal_field maxDigits decimalPlaces = Except.ok "float32" ↔
        (¬(1 ≤ decimalPlaces ∧ 309 ≤ (maxDigits : ℤ) - (decimalPlaces : ℤ)) ∧
          ((10 : ℚ) ^ ((maxDigits : ℤ) - (decimalPlaces : ℤ)) -
              (10 : ℚ) ^ (-(decimalPlaces : ℤ)) < 3.4e38 ∧ decimalPlaces ≤ 7))) ∧
      (handle_decimal_field maxDigits decimalPlaces = Except.ok "float64" ↔
        (¬(1 ≤ decimalPlaces ∧ 309 ≤ (maxDigits : ℤ) - (decimalPlaces : ℤ)) ∧
          ¬((10 : ℚ) ^ ((maxDigits : ℤ) - (decimalPlaces : ℤ)) -
              (10 : ℚ) ^ (-(decimalPlaces : ℤ)) < 3.4e38 ∧ decimalPlaces ≤ 7))) ∧
      (handle_decimal_field maxDigits decimalPlaces =
          Except.error (TSError.overflowError "int too large to convert to float") ↔
        (1 ≤ decimalPlaces ∧ 309 ≤ (maxDigits : ℤ) - (decimalPlaces : ℤ)))) ∧
    handle_decimal_field 9 6 = Except.ok "float32" ∧
    handle_decimal_field 19 10 = Except.ok "float64" ∧
    handle_decimal_field 100 2 = Except.ok "float64" := by
  refine ⟨?_, ?_, ?_, ?_⟩
  · intro p s
    rw [handle_decimal_field]
    split_ifs with hov hcond
    · refine ⟨?_, ?_, ?_⟩
      · exact ⟨fun hc => hc.elim, fun hr => absurd hov hr.1⟩
      · exact ⟨fun hc => hc.elim, fun hr => absurd hov hr.1⟩
      · exact ⟨fun _ => hov, fun _ => rfl⟩
    · refine ⟨?_, ?_, ?_⟩
      · exact ⟨fun _ => ⟨hov, hcond⟩, fun _ => rfl⟩
      · constructor
        · intro hc
          exact absurd ((Except.ok.injEq _ _).mp hc) (by decide)
        · rintro ⟨-, hnc⟩
          exact absurd hcond hnc
      · exact ⟨fun hc => hc.elim, fun hhov => absurd hhov hov⟩
    · refine ⟨?_, ?_, ?_⟩
      · constructor
        · intro hc
          exact absurd ((Except.ok.injEq _ _).mp hc) (by decide)
        · rintro ⟨-, hc⟩
          exact absurd hc hcond
      · exact ⟨fun _ => ⟨hov, hcond⟩, fun _ => rfl⟩
      · exact ⟨fun hc => hc.elim, fun hhov => absurd hhov hov⟩
  · rw [handle_decimal_field, if_neg (by norm_num), if_pos]
    exact ⟨by norm_num, by norm_num⟩
  · rw [handle_decimal_field, if_neg (by norm_num), if_neg]
    intro hc
    exact absurd hc.2 (by norm_num)
  · rw [handle_decimal_field, if_neg (by norm_num), if_neg]
    intro hc
    have h1 := hc.1
    norm_num at h1

/-- Counterexample for C2 as stated: at precision 310 and scale 1 the source
raises an uncaught `OverflowError` while converting the 309-digit integer to
a double, so the mapper returns neither `float32` nor the `float64` the
claim's "and float64 otherwise" requires. -/
theorem decimal_overflow_counterexample :
    handle_decimal_field 310 1 =
      Except.error (TSError.overflowError "int too large to convert to float") ∧
    handle_decimal_field 310 1 ≠ Except.ok "float64" ∧
    handle_decimal_field 310 1 ≠ Except.ok "float32" := by
  have h : handle_decimal_field 310 1 =
      Except.error (TSError.overflowError "int too large to convert to float") := by
    rw [handle_decimal_field, if_pos]
    norm_num
  refine ⟨h, ?_, ?_⟩
  · rw [h]
    intro hc
    exact Except.noConfusion hc
  · rw [h]
    intro hc
    exact Except.noConfusion hc

/-- C10: a field named exactly `id` is mapped to `string` before the
storage-type table is consulted (so an unsupported storage class never raises
there), while a primary-key field with any other name is mapped by its storage
type exactly like an ordinary field. -/
theorem id_field_type_precedence :
    (∀ f : ModelField, f.name = "id" →
      handle_typesense_field_type mapped_field_types f = Except.ok "string") ∧
    (∀ f g : ModelField, f.name ≠ "id" → g.name ≠ "id" → f.storageType = g.storageType →
      handle_typesense_field_type mapped_field_types f =
        handle_typesense_field_type mapped_field_types g) := by
  constructor
  · intro f hf
    rw [handle_typesense_field_type, if_pos hf]
  · intro f g hf hg hst
    rw [handle_typesense_field_type, if_neg hf, handle_typesense_field_type, if_neg hg, hst]

/-- Witness for C10: the concrete `id`-named field with unsupported storage
maps to `string`, and a primary key named `code` maps identically to an
ordinary field of the same storage class. -/
theorem id_field_type_precedence_witness :
    weirdIdF.name = "id" ∧ weirdIdF.storageType = StorageType.binaryField ∧
    mapped_field_types StorageType.binaryField = none ∧
    handle_typesense_field_type mapped_field_types weirdIdF = Except.ok "string" ∧
    pkCodeF.primaryKey = true ∧ plainCodeF.primaryKey = false ∧
    handle_typesense_field_type mapped_field_types pkCodeF =
      handle_typesense_field_type mapped_field_types plainCodeF := by
  refine ⟨rfl, rfl, rfl, ?_, rfl, rfl, ?_⟩
  · exact id_field_type_precedence.1 weirdIdF rfl
  · exact id_field_type_precedence.2 pkCodeF plainCodeF (by decide) (by decide) rfl

/-- C6: with joins enabled, a non-composite parent relation named `author`
targeting a field named `id` of 64-bit integer storage emits exactly one
relation field named `author_id` of type `string` (the `id` name takes
precedence over the type table), with reference `author.id`; a composite
parent relation instead aborts with the composite-key error.  The last
conjunct shows the single emitted relation dictionary on the concrete `Book`
model. -/
theorem join_naming (model : DjangoModel) (skip : Finset SkipEntry)
    (facets : Finset FacetEntry) (fk : ForeignKeyField)
    (hcomp : fk.relatedFieldsTail = [])
    (hself : (fk.relatedModelId == model.id) = false)
    (hname : fk.name = "author")
    (hfname : fk.relatedFieldsHead.name = "id")
    (_hftype : fk.relatedFieldsHead.storageType = StorageType.bigAutoField)
    (hverb : fk.relatedModelVerboseName = "author") :
    join_on_field model skip facets fk mapped_field_types =
      Except.ok { name := "author_id", type := "string"
                , facet := some (decide (FacetEntry.foreignKey fk ∈ facets))
                , index := some (decide (SkipEntry.foreignKey fk ∉ skip))
                , reference := some "author.id"
                , optional := none } ∧
    (∀ fk2 : ForeignKeyField, is_composite_foreign_key fk2 = true →
      join_on_field model skip facets fk2 mapped_field_types =
        Except.error (TSError.requestMalformed "Composite key is not allowed")) ∧
    resolvedTypesenseRelations (derive bookModel c6JoinSpec) =
      { { name := "author_id", type := "string"
        , facet := some false, index := some true
        , reference := some "author.id", optional := none } } := by
  refine ⟨?_, ?_, by decide⟩
  · have hc : handle_composite_foreign_key fk = Except.ok () := by
      rw [handle_composite_foreign_key, if_neg]
      simp [is_composite_foreign_key, hcomp]
    have hs : raise_on_self_reference model.id fk.relatedModelId = Except.ok () := by
      rw [raise_on_self_reference, if_neg]
      simp [is_self_reference, hself]
    have ht : handle_typesense_field_type mapped_field_types fk.relatedFieldsHead =
        Except.ok "string" := by
      rw [handle_typesense_field_type, if_pos hfname]
    unfold join_on_field
    rw [exceptBind_ok_left hc, exceptBind_ok_left hs, exceptBind_ok_left ht]
    rw [hname, hfname, hverb]
    rw [show ("author" : String) ++ "_" ++ "id" = "author_id" from by decide]
    rw [show snake_case "author" ++ "." ++ "id" = "author.id" from by decide]
  · intro fk2 hcomp2
    have hc : handle_composite_foreign_key fk2 =
        Except.error (TSError.requestMalformed "Composite key is not allowed") := by
      rw [handle_composite_foreign_key, if_pos hcomp2]
    unfold join_on_field
    rw [exceptBind_error_left hc]

/-- Witness for C6: the concrete `Book.author` relation under joins. -/
theorem join_naming_witness :
    authorFK.relatedFieldsTail = [] ∧
    authorFK.relatedFieldsHead.storageType = StorageType.bigAutoField ∧
    join_on_field bookModel ∅ ∅ authorFK mapped_field_types =
      Except.ok { name := "author_id", type := "string"
                , facet := some false, index := some true
                , reference := some "author.id", optional := none } := by
  refine ⟨rfl, rfl, ?_⟩
  have h := (join_naming bookModel ∅ ∅ authorFK rfl (by decide) rfl rfl rfl rfl).1
  rw [h]
  decide

/-- C1 (amended): implicit discovery runs if and only if `indexFields`,
`parents`, `children` and `geopoints` are all empty (`skipIndexFields` never
disables it); in implicit mode the resolved index fields are exactly the
entity's scalar fields that are neither the `id`-named field (unless
`overrideId`) nor members of `skipIndexFields`, and the relations are exactly
the entity's non-`id`-named foreign keys and reverse many-to-one relations;
in explicit mode the spec's sets are used verbatim, with relations never
backfilled. -/
theorem implicit_explicit_boundary (model : DjangoModel) (spec : CollectionSpec)
    (r : ResolvedCollection) (h : derive model spec = Except.ok r) :
    (spec.indexFields = ∅ ∧ spec.parents = ∅ ∧ spec.children = ∅ ∧ spec.geopoints = ∅ →
      (∀ f : ModelField, f ∈ r.indexFields ↔
        MetaField.scalar f ∈ model.metaFields ∧
        should_skip_field f.name spec.overrideId = false ∧
        SkipEntry.scalar f ∉ spec.skipIndexFields) ∧
      (∀ fk : ForeignKeyField, fk ∈ r.parents ↔
        MetaField.foreignKey fk ∈ model.metaFields ∧
        should_skip_field fk.name spec.overrideId = false) ∧
      (∀ c : ManyToOneRelField, c ∈ r.children ↔
        MetaField.manyToOneRel c ∈ model.metaFields ∧
        should_skip_field c.name spec.overrideId = false)) ∧
    ((spec.indexFields ≠ ∅ ∨ spec.parents ≠ ∅ ∨ spec.children ≠ ∅ ∨ spec.geopoints ≠ ∅) →
      r.indexFields = spec.indexFields ∧ r.parents = spec.parents ∧
        r.children = spec.children) := by
  rcases derive_ok_elim h with ⟨fs, dsf, facets, dc, dp, tf, tr, h1, -, -, -, -, -, -, hr⟩
  have hidx : r.indexFields = fs.nonRelationFields := by rw [hr]
  have hpar : r.parents = fs.parents := by rw [hr]
  have hchi : r.children = fs.children := by rw [hr]
  constructor
  · rintro ⟨e1, e2, e3, e4⟩
    have hcond : ¬(spec.indexFields.Nonempty ∨ spec.parents.Nonempty ∨
        spec.children.Nonempty ∨ spec.geopoints.Nonempty) := by
      simp [e1, e2, e3, e4]
    rw [handle_fields, if_neg hcond] at h1
    rcases handle_implicit_fields_ok h1 with ⟨hs1, hs2, hs3⟩
    refine ⟨?_, ?_, ?_⟩
    · intro f
      rw [hidx, hs1, mem_implicit_scalars]
      constructor
      · rintro ⟨hm, hskip, hindexed⟩
        refine ⟨hm, hskip, ?_⟩
        rw [is_field_indexed, e1] at hindexed
        simpa using hindexed
      · rintro ⟨hm, hskip, hnotskip⟩
        refine ⟨hm, hskip, ?_⟩
        rw [is_field_indexed, e1]
        simpa using hnotskip
    · intro fk
      rw [hpar, hs2, mem_implicit_parent_rels]
    · intro c
      rw [hchi, hs3, mem_implicit_child_rels]
  · intro hne
    have hcond : spec.indexFields.Nonempty ∨ spec.parents.Nonempty ∨
        spec.children.Nonempty ∨ spec.geopoints.Nonempty := by
      rcases hne with hne | hne | hne | hne
      · exact Or.inl (Finset.nonempty_iff_ne_empty.mpr hne)
      · exact Or.inr (Or.inl (Finset.nonempty_iff_ne_empty.mpr hne))
      · exact Or.inr (Or.inr (Or.inl (Finset.nonempty_iff_ne_empty.mpr hne)))
      · exact Or.inr (Or.inr (Or.inr (Finset.nonempty_iff_ne_empty.mpr hne)))
    rw [handle_fields, if_pos hcond] at h1
    have hfs := handle_explicit_fields_ok h1
    subst hfs
    exact ⟨hidx, hpar, hchi⟩

/-- Counterexample for C1 as stated: with an otherwise-empty spec whose
`skipIndexFields` contains the scalar `content`, implicit discovery runs and
succeeds, yet `content` — a non-primary-key scalar field of the entity — does
not become an index field. -/
theorem implicit_skip_counterexample :
    skipContentSpec.indexFields = ∅ ∧ skipContentSpec.parents = ∅ ∧
    skipContentSpec.children = ∅ ∧ skipContentSpec.geopoints = ∅ ∧
    skipContentSpec.skipIndexFields ≠ ∅ ∧
    (derive articleModel skipContentSpec).isOk = true ∧
    MetaField.scalar contentF ∈ articleModel.metaFields ∧
    contentF.name ≠ "id" ∧ contentF.primaryKey = false ∧
    contentF ∉ resolvedIndexFields (derive articleModel skipContentSpec) ∧
    titleF ∈ resolvedIndexFields (derive articleModel skipContentSpec) := by
  decide

/-- Witness for C1 (amended), instantiated on the concrete article entity with
a non-empty skip set and on the explicit `Book` spec. -/
theorem implicit_explicit_boundary_witness :
    titleF ∈ resolvedIndexFields (derive articleModel skipContentSpec) ∧
    contentF ∉ resolvedIndexFields (derive articleModel skipContentSpec) ∧
    resolvedParents (derive bookModel c5Spec) = ∅ := by
  have hok : derive articleModel skipContentSpec = Except.ok articleResolved := by decide
  have hmain := implicit_explicit_boundary articleModel skipContentSpec articleResolved hok
  have himp := hmain.1 ⟨rfl, rfl, rfl, rfl⟩
  have hok2 : derive bookModel c5Spec = Except.ok bookC5Resolved := by decide
  have hmain2 := implicit_explicit_boundary bookModel c5Spec bookC5Resolved hok2
  have hexp := hmain2.2 (Or.inl (by decide))
  refine ⟨?_, ?_, ?_⟩
  · rw [hok]
    show titleF ∈ articleResolved.indexFields
    exact (himp.1 titleF).mpr ⟨by decide, by decide, by decide⟩
  · rw [hok]
    show contentF ∉ articleResolved.indexFields
    intro hmem
    exact absurd ((himp.1 contentF).mp hmem).2.2 (by decide)
  · rw [hok2]
    show bookC5Resolved.parents = ∅
    rw [hexp.2.1]
    rfl
/-- C4 (amended): a self-referential many-to-one relation always aborts
implicit discovery (the relation walk raises the self-reference error); when
supplied explicitly in the spec's parents it aborts derivation whenever
`useJoins` is true (the check lives in the join emission), but with
`useJoins = false` the self relation is accepted — the claim's "regardless of
the useJoins flag" does not hold. -/
theorem self_reference_rejection (model : DjangoModel) (spec : CollectionSpec)
    (fk : ForeignKeyField) (hself : fk.relatedModelId = model.id) :
    (spec.indexFields = ∅ ∧ spec.parents = ∅ ∧ spec.children = ∅ ∧ spec.geopoints = ∅ →
      MetaField.foreignKey fk ∈ model.metaFields →
      should_skip_field fk.name spec.overrideId = false →
      (derive model spec).isOk = false) ∧
    (fk ∈ spec.parents → spec.useJoins = true → (derive model spec).isOk = false) := by
  constructor
  · rintro ⟨e1, e2, e3, e4⟩ hmem hskip
    have hproc : (process_field (MetaField.foreignKey fk) spec.indexFields
        spec.skipIndexFields spec.overrideId model).isOk = false := by
      simp [process_field, MetaField.fieldName, hskip, process_relation_field,
        raise_on_self_reference, is_self_reference, hself, Bind.bind, Except.bind,
        Except.isOk, Except.toBool]
    have himp : (handle_implicit_fields model spec).isOk = false :=
      implicit_foldlM_error model.metaFields ⟨∅, ∅, ∅⟩ ⟨MetaField.foreignKey fk, hmem, hproc⟩
    have hcond : ¬(spec.indexFields.Nonempty ∨ spec.parents.Nonempty ∨
        spec.children.Nonempty ∨ spec.geopoints.Nonempty) := by
      simp [e1, e2, e3, e4]
    cases hd : derive model spec with
    | error e => rfl
    | ok r =>
      exfalso
      rcases derive_ok_elim hd with ⟨fs, -, -, -, -, -, -, h1, -, -, -, -, -, -, -⟩
      rw [handle_fields, if_neg hcond] at h1
      rw [h1] at himp
      simp [Except.isOk, Except.toBool] at himp
  · intro hmem hjoins
    cases hd : derive model spec with
    | error e => rfl
    | ok r =>
      exfalso
      rcases derive_ok_elim hd with ⟨fs, dsf, facets, dc, dp, tf, tr, h1, -, -, -, -, -, h7, -⟩
      have hcond : spec.indexFields.Nonempty ∨ spec.parents.Nonempty ∨
          spec.children.Nonempty ∨ spec.geopoints.Nonempty :=
        Or.inr (Or.inl ⟨fk, hmem⟩)
      rw [handle_fields, if_pos hcond] at h1
      have hfs := handle_explicit_fields_ok h1
      subst hfs
      have hselfb : is_self_reference model.id fk.relatedModelId = true := by
        simp [is_self_reference, hself]
      rcases @join_fields_error_of_self_ref model spec.skipIndexFields facets
          spec.parents fk hmem hselfb with ⟨e, he⟩
      rw [hjoins] at h7
      rw [handle_typesense_relations_error_of_join he] at h7
      exact Except.noConfusion h7

/-- Counterexample for C4 as stated: the self relation supplied explicitly
with `useJoins = false` is accepted — derivation succeeds. -/
theorem self_reference_no_joins_counterexample :
    bossFK.relatedModelId = employeeModel.id ∧
    bossFK ∈ c4NoJoinSpec.parents ∧
    c4NoJoinSpec.useJoins = false ∧
    (derive employeeModel c4NoJoinSpec).isOk = true := by
  decide

/-- Witness for C4 (amended): the concrete self-referential entity fails both
implicitly (empty spec) and explicitly with joins. -/
theorem self_reference_rejection_witness :
    (derive employeeModel {}).isOk = false ∧
    (derive employeeModel c4JoinSpec).isOk = false := by
  constructor
  · exact (self_reference_rejection employeeModel {} bossFK rfl).1
      ⟨rfl, rfl, rfl, rfl⟩ (by decide) (by decide)
  · exact (self_reference_rejection employeeModel c4JoinSpec bossFK rfl).2 (by decide) rfl

/-- C5 (amended): a supplied default sorting field aborts derivation with
`RequestMalformed` when it is named `id`, or when it is neither one of the
entity's own scalar fields nor a member of the resolved index fields, or when
its storage class is not exactly one of the sortable classes (`IntegerField`,
`FloatField`, `DecimalField`, `DateField`, `DateTimeField`); when all three
checks pass it is retained in the output.  The skip set plays no role, and
membership in the entity's catalogue suffices even when the field is in
neither the index nor the skip set — the claim's "present in the resolved
index or skip set" does not match the code. -/
theorem default_sorting_field_checks (model : DjangoModel) (spec : CollectionSpec)
    (f : ModelField) (hf : spec.defaultSortingField = some f)
    (fs : FieldSets) (hres : handle_fields model spec = Except.ok fs) :
    ((f.name = "id" ∨
        (f ∉ get_non_relation_fields model.metaFields ∧ f ∉ fs.nonRelationFields) ∨
        is_mapped_sortable_type f.storageType = false) →
      isRequestMalformed (derive model spec) = true) ∧
    (∀ r : ResolvedCollection, derive model spec = Except.ok r →
      r.defaultSortingField = some f ∧ f.name ≠ "id" ∧
      (f ∈ get_non_relation_fields model.metaFields ∨ f ∈ fs.nonRelationFields) ∧
      is_mapped_sortable_type f.storageType = true) := by
  constructor
  · intro hbad
    have hdsf : ∃ m, handle_default_sorting_field (get_non_relation_fields model.metaFields)
        fs.nonRelationFields spec.defaultSortingField =
          Except.error (TSError.requestMalformed m) := by
      rw [hf]
      unfold handle_default_sorting_field
      simp only []
      split_ifs with h1 h2 h3
      · exact ⟨_, rfl⟩
      · exact ⟨_, rfl⟩
      · exact ⟨_, rfl⟩
      · rcases hbad with hbad | hbad | hbad
        · exact absurd hbad h1
        · exact absurd hbad h2
        · exact absurd hbad h3
    rcases hdsf with ⟨m, hm⟩
    rw [derive_error_of_dsf hres hm]
    rfl
  · intro r hr
    rcases derive_ok_elim hr with ⟨fs2, dsf, facets, dc, dp, tf, tr, h1, h2, -, -, -, -, -, hrec⟩
    have hfs2 : fs2 = fs := by
      rw [hres] at h1
      exact ((Except.ok.injEq _ _).mp h1).symm
    subst hfs2
    rw [hf] at h2
    unfold handle_default_sorting_field at h2
    simp only [] at h2
    split_ifs at h2 with h1c h2c h3c
    have hdsf : dsf = some f := ((Except.ok.injEq _ _).mp h2).symm
    subst hdsf
    refine ⟨?_, h1c, ?_, ?_⟩
    · rw [hrec]
    · rcases not_and_or.mp h2c with hc | hc
      · exact Or.inl (not_not.mp hc)
      · exact Or.inr (not_not.mp hc)
    · simpa using h3c

/-- Counterexample for C5 as stated: `published_date` is in neither the
resolved index set nor the skip set, yet derivation succeeds and retains it
as the default sorting field (the code accepts any scalar field of the
entity's own catalogue). -/
theorem default_sorting_field_counterexample :
    c5Spec.defaultSortingField = some publishedDateF ∧
    publishedDateF ∉ c5Spec.indexFields ∧
    SkipEntry.scalar publishedDateF ∉ c5Spec.skipIndexFields ∧
    resolvedIndexFields (derive bookModel c5Spec) = {bookTitleF} ∧
    (derive bookModel c5Spec).isOk = true ∧
    resolvedDefaultSortingField (derive bookModel c5Spec) = some publishedDateF := by
  decide

/-- Witness for C5 (amended): a char-typed sorting field inside the index set
fails the sortable-class check and derivation aborts with
`RequestMalformed`. -/
theorem default_sorting_field_checks_witness :
    isRequestMalformed (derive bookModel c5BadTypeSpec) = true := by
  have hres : handle_fields bookModel c5BadTypeSpec =
      Except.ok ⟨{bookTitleF}, ∅, ∅⟩ := by decide
  exact (default_sorting_field_checks bookModel c5BadTypeSpec bookTitleF rfl
    ⟨{bookTitleF}, ∅, ∅⟩ hres).1 (Or.inr (Or.inr (by decide)))

/-- C3: on every successful derivation the resolved facet set is a subset of
`indexFields ∪ parents` (with the `All` sentinel resolving to that entire
union), and a spec whose explicit facet set is not a subset of the resolved
`indexFields ∪ parents` always fails with `RequestMalformed`. -/
theorem facets_subset_law (model : DjangoModel) (spec : CollectionSpec) :
    (∀ r : ResolvedCollection, derive model spec = Except.ok r →
      r.facets ⊆ r.indexFields.image FacetEntry.scalar ∪ r.parents.image FacetEntry.foreignKey ∧
      (spec.facets = SetOrAll.all →
        r.facets =
          r.indexFields.image FacetEntry.scalar ∪ r.parents.image FacetEntry.foreignKey)) ∧
    (∀ s : Finset FacetEntry, ∀ fs : FieldSets, spec.facets = SetOrAll.explicitSet s →
      handle_fields model spec = Except.ok fs →
      ¬ s ⊆ fs.nonRelationFields.image FacetEntry.scalar ∪
          fs.parents.image FacetEntry.foreignKey →
      isRequestMalformed (derive model spec) = true) := by
  constructor
  · intro r hr
    rcases derive_ok_elim hr with ⟨fs, dsf, facets, dc, dp, tf, tr, -, -, h3, -, -, -, -, hrec⟩
    have hfacets : r.facets = facets := by rw [hrec]
    have hidx : r.indexFields = fs.nonRelationFields := by rw [hrec]
    have hpar : r.parents = fs.parents := by rw [hrec]
    rcases ensure_ok_subset h3 with ⟨hsub, hall, -⟩
    constructor
    · rw [hfacets, hidx, hpar]
      exact hsub
    · intro hAll
      rw [hfacets, hidx, hpar]
      exact hall hAll
  · intro s fs hfac hres hnsub
    cases h2 : handle_default_sorting_field (get_non_relation_fields model.metaFields)
        fs.nonRelationFields spec.defaultSortingField with
    | error e =>
      rcases dsf_error_malformed h2 with ⟨m, hm⟩
      subst hm
      rw [derive_error_of_dsf hres h2]
      rfl
    | ok dsf =>
      have h3 : ensure_is_subset_or_all spec.facets
          (fs.nonRelationFields.image FacetEntry.scalar ∪
            fs.parents.image FacetEntry.foreignKey) =
          Except.error
            (TSError.requestMalformed "Input set must be a subset of the final set.") := by
        rw [hfac]
        exact ensure_explicit_not_subset hnsub
      rw [derive_error_of_facets hres h2 h3]
      rfl

/-- Witness for C3: faceting `published_date`, which is outside the resolved
`indexFields ∪ parents` of `c3FailSpec`, fails with `RequestMalformed`; the
success half is exercised on the all-facets spec of the same model. -/
theorem facets_subset_law_witness :
    isRequestMalformed (derive bookModel c3FailSpec) = true := by
  have hres : handle_fields bookModel c3FailSpec = Except.ok ⟨{bookTitleF}, ∅, ∅⟩ := by
    decide
  exact (facets_subset_law bookModel c3FailSpec).2 {FacetEntry.scalar publishedDateF}
    ⟨{bookTitleF}, ∅, ∅⟩ rfl hres (by decide)

/-- C9: an `indexFields` set containing two distinct descriptors with the
same output name always aborts derivation (with the duplicate-name message
whenever the earlier index/skip-intersection and geopoint checks pass), while
supplying the same descriptor twice collapses in the set and derivation
succeeds, emitting the field exactly once (shown on the concrete `Book`
model). -/
theorem duplicate_field_name_detection (model : DjangoModel) (spec : CollectionSpec)
    (f g : ModelField) (hf : f ∈ spec.indexFields) (hg : g ∈ spec.indexFields)
    (hne : f ≠ g) (hname : f.name = g.name) :
    (derive model spec).isOk = false ∧
    (spec.indexFields ∩ get_non_relation_skip_fields spec.skipIndexFields = ∅ →
      (¬ ∃ gp ∈ spec.geopoints, gp.1 ∈ spec.indexFields ∨ gp.2 ∈ spec.indexFields) →
      derive model spec = Except.error (TSError.requestMalformed "Field names must be unique.")) ∧
    (insert f {f} : Finset ModelField) = {f} ∧
    (derive bookModel c9SameSpec).isOk = true ∧
    resolvedIndexFields (derive bookModel c9SameSpec) = {bookTitleF} ∧
    resolvedTypesenseFields (derive bookModel c9SameSpec) =
      { { name := "title", type := "string", facet := some false
        , index := some true, reference := none, optional := none } } := by
  have hdup : has_multiple_of_same_field_name spec.indexFields := ⟨f, hf, g, hg, hne, hname⟩
  have hcond : spec.indexFields.Nonempty ∨ spec.parents.Nonempty ∨
      spec.children.Nonempty ∨ spec.geopoints.Nonempty := Or.inl ⟨f, hf⟩
  refine ⟨?_, ?_, by simp, by decide, by decide, by decide⟩
  · have hexp : ∃ e, handle_explicit_fields model spec = Except.error e := by
      unfold handle_explicit_fields
      split_ifs
      all_goals exact ⟨_, rfl⟩
    rcases hexp with ⟨e, he⟩
    have hhf : handle_fields model spec = Except.error e := by
      rw [handle_fields, if_pos hcond]
      exact he
    rw [derive_error_of_handle_fields hhf]
    rfl
  · intro hint hgeo
    have he : handle_explicit_fields model spec =
        Except.error (TSError.requestMalformed "Field names must be unique.") := by
      unfold handle_explicit_fields
      rw [if_neg (by rw [hint]; exact Finset.not_nonempty_empty), if_neg hgeo, if_pos hdup]
    have hhf : handle_fields model spec =
        Except.error (TSError.requestMalformed "Field names must be unique.") := by
      rw [handle_fields, if_pos hcond]
      exact he
    exact derive_error_of_handle_fields hhf

/-- Witness for C9: two `title` fields from different entities abort the
concrete derivation with the duplicate-name error. -/
theorem duplicate_field_name_detection_witness :
    derive bookModel c9DupSpec =
      Except.error (TSError.requestMalformed "Field names must be unique.") := by
  exact (duplicate_field_name_detection bookModel c9DupSpec bookTitleF chapterTitleF
    (by decide) (by decide) (by decide) rfl).2.1 (by decide) (by decide)

/-- C7 evaluation: exactly one field is emitted for the `(lat, long)` pair,
of type `geopoint`, with facet and index the OR of the members' status — but
its name is built by formatting the two Django field objects
(`f'{long}_{lat}'` calls `Field.__str__`, which prefixes the model label), so
the emitted name is `collections.GeoPoint.lat_collections.GeoPoint.long`, not
the `lat_long` the repository's own tests expect. -/
theorem geopoint_emission_eval :
    (derive geoModel geoSpec).isOk = true ∧
    resolvedTypesenseFields (derive geoModel geoSpec) =
      { { name := "name", type := "string", facet := some false
        , index := some true, reference := none, optional := none }
      , { name := "collections.GeoPoint.lat_collections.GeoPoint.long", type := "geopoint"
        , facet := some false, index := some true, reference := none, optional := none } } ∧
    geopoint_api_field ∅ ∅ {geoNameF} (latF, longF) =
      { name := "collections.GeoPoint.lat_collections.GeoPoint.long", type := "geopoint"
      , facet := some false, index := some true, reference := none, optional := none } ∧
    ("collections.GeoPoint.lat_collections.GeoPoint.long" : String) ≠ "lat_long" := by
  decide

/-- C8 evaluation: the schema field emitted for the nullable scalar
`optional` carries no `optional` attribute at all (the source line is
commented out), instead of `optional = true` as the field's nullable flag and
the repository's own tests require. -/
theorem optional_attribute_eval :
    optionalF.null = true ∧
    (derive optModel optSpec).isOk = true ∧
    resolvedTypesenseFields (derive optModel optSpec) =
      { { name := "optional", type := "string", facet := some false
        , index := some true, reference := none, optional := none } } ∧
    scalar_api_field ∅ ∅ {optionalF} optionalF =
      { name := "optional", type := "string", facet := some false
      , index := some true, reference := none, optional := none } ∧
    (scalar_api_field ∅ ∅ {optionalF} optionalF).optional ≠ some optionalF.null := by
  decide

end TypesenseDjango
